import Mathlib

/-!
Shallow embedding of `redash/tasks/queries/maintenance.py` (query and schema
refresh scheduling).  Pure data models the entities the pass reads; each pass
is a function producing the ordered list of observable effects (log lines,
metric emissions, failure-tracker records, queue submissions, status-store
reads and writes) it performs, in program order.
-/

namespace Redash

/-- One declared parameter descriptor of a query: `{"name": ..., "value": ...}`
as read by `refresh_queries` via `p["name"]` / `p.get("value")`. -/
structure Param where
  name : String
  value : Option String
  deriving DecidableEq, Repr

/-- A data source as read by the passes: `ds.id`, `ds.name`, `ds.paused`,
`ds.pause_reason`, and `ds.org.is_disabled` (flattened). -/
structure DataSource where
  id : Nat
  name : String
  paused : Bool
  pause_reason : String
  org_is_disabled : Bool
  deriving DecidableEq, Repr

/-- Behaviour of the external substitution collaborator
`query.parameterized.apply(parameters)` for this query's parameter map:
it either returns resolved text (`.ok`), raises `InvalidParameterError`
(`.invalidParameter` with its string form), or raises
`QueryDetachedFromDataSourceError` (`.detachedError` carrying `e.query_id`).
Recorded on the query as an oracle, since the collaborator lives outside
`maintenance.py`. -/
inductive ApplyResult where
  | ok (query : String)
  | invalidParameter (message : String)
  | detachedError (query_id : Nat)
  deriving DecidableEq, Repr

/-- A query as read by `refresh_queries`: `query.id`, `query.query_text`,
`query.parameters`, `query.org.is_disabled` (flattened), `query.data_source`
(nullable), `query.user_id`, plus the substitution oracle. -/
structure Query where
  id : Nat
  query_text : String
  parameters : List Param
  org_is_disabled : Bool
  data_source : Option DataSource
  user_id : Nat
  apply_result : ApplyResult
  deriving DecidableEq, Repr

/-- An observable effect of the query refresh pass, in program order. -/
inductive Event where
  | logLine (line : String)
  | applyParameters (query_id : Nat)
  | trackFailure (query_id : Nat) (message : String)
  | enqueueQuery (query_text : String) (data_source_id : Nat) (user_id : Nat)
      (query_id : Nat)
  | gauge (metric : String) (value : Int)
  | statusRead
  | statusWrite (outdated_queries_count : Nat) (query_ids : List Nat)
      (last_refresh_at : Int)
  deriving DecidableEq, Repr

/-- Python `any(parameters)` where `parameters` is the dict
`{p["name"]: p.get("value") for p in query.parameters}`: `any` over a dict
iterates its KEYS, so this is true iff some parameter NAME is truthy
(a non-empty string); the values play no role. -/
def anyParameters (ps : List Param) : Bool :=
  ps.any (fun p => p.name != "")

/-- One iteration of the `for query in models.Query.outdated_queries()` loop in
`refresh_queries`: the emitted events plus `some query.id` when the query is
enqueued (the iteration then appends to `query_ids` and increments
`outdated_queries_count`). -/
def processQuery (disable_refresh : Bool) (q : Query) : List Event × Option Nat :=
  if disable_refresh then
    ([Event.logLine "Disabled refresh queries."], none)
  else if q.org_is_disabled then
    ([Event.logLine ("Skipping refresh of " ++ toString q.id ++
        " because org is disabled.")], none)
  else
    match q.data_source with
    | none =>
      ([Event.logLine ("Skipping refresh of " ++ toString q.id ++
          " because the datasource is none.")], none)
    | some ds =>
      if ds.paused then
        ([Event.logLine ("Skipping refresh of " ++ toString q.id ++
            " because datasource - " ++ ds.name ++ " is paused (" ++
            ds.pause_reason ++ ").")], none)
      else
        if anyParameters q.parameters then
          match q.apply_result with
          | ApplyResult.ok t =>
            ([Event.applyParameters q.id,
              Event.enqueueQuery t ds.id q.user_id q.id], some q.id)
          | ApplyResult.invalidParameter m =>
            ([Event.applyParameters q.id,
              Event.trackFailure q.id ("Skipping refresh of " ++ toString q.id ++
                " because of invalid parameters: " ++ m)], none)
          | ApplyResult.detachedError inner =>
            ([Event.applyParameters q.id,
              Event.trackFailure q.id ("Skipping refresh of " ++ toString q.id ++
                " because a related dropdown query (" ++ toString inner ++
                ") is unattached to any datasource.")], none)
        else
          ([Event.enqueueQuery q.query_text ds.id q.user_id q.id], some q.id)

/-- Events of the whole `for` loop, in order. -/
def queriesEvents (disable_refresh : Bool) : List Query → List Event
  | [] => []
  | q :: rest => (processQuery disable_refresh q).1 ++ queriesEvents disable_refresh rest

/-- The `query_ids` list accumulated by the loop, in order. -/
def dispatchedIds (disable_refresh : Bool) : List Query → List Nat
  | [] => []
  | q :: rest =>
    match (processQuery disable_refresh q).2 with
    | some i => i :: dispatchedIds disable_refresh rest
    | none => dispatchedIds disable_refresh rest

/-- The shared status store (`redash:status` hash) as read by `hgetall`:
only the `last_refresh_at` field matters to the pass (`none` when the hash
holds no previous record). -/
structure StatusStore where
  last_refresh_at : Option Int
  deriving DecidableEq, Repr

/-- The whole `refresh_queries` pass as its ordered effect trace.  `now` is the
single `time.time()` call.  After the loop: the `manager.outdated_queries`
gauge, the final info log, the `hgetall` read of the previous status, the
`hmset` overwrite with the new count / id list / timestamp, and finally the
`manager.seconds_since_refresh` gauge computed from the value read before the
overwrite (`status.get("last_refresh_at", now)` defaults to `now`). -/
def refresh_queries (disable_refresh : Bool) (queries : List Query)
    (store : StatusStore) (now : Int) : List Event :=
  let ids := dispatchedIds disable_refresh queries
  let count := ids.length
  Event.logLine "Refreshing queries..."
    :: queriesEvents disable_refresh queries
    ++ [Event.gauge "manager.outdated_queries" (count : Int),
        Event.logLine ("Done refreshing queries. Found " ++ toString count ++
          " outdated queries: " ++ toString ids),
        Event.statusRead,
        Event.statusWrite count ids now,
        Event.gauge "manager.seconds_since_refresh"
          (now - (store.last_refresh_at.getD now))]

/-- Event classifier: queue submissions (`enqueue_query`). -/
def isEnqueue : Event → Bool
  | Event.enqueueQuery _ _ _ _ => true
  | _ => false

/-- Event classifier: failure-tracker records (`track_failure`). -/
def isTrackFailure : Event → Bool
  | Event.trackFailure _ _ => true
  | _ => false

/-- Event classifier: log lines (inside the loop these are exactly the skip logs). -/
def isLogLine : Event → Bool
  | Event.logLine _ => true
  | _ => false

/-- Event classifier: queue submissions carrying the given query id. -/
def isEnqueueFor (qid : Nat) : Event → Bool
  | Event.enqueueQuery _ _ _ i => i == qid
  | _ => false

/-- Number of queue submissions for the given query id in a trace. -/
def enqueueCountFor (qid : Nat) (evs : List Event) : Nat :=
  (evs.filter (isEnqueueFor qid)).length

/-- Event classifier: interactions with the status store or the metrics sink
performed after the loop (read, bulk write, gauges). -/
def isStatusEvent : Event → Bool
  | Event.statusRead => true
  | Event.statusWrite _ _ _ => true
  | Event.gauge _ _ => true
  | _ => false

/-- Outcome of the external call `ds.get_schema(refresh=True)` inside
`refresh_schema`: it returns normally, raises `JobTimeoutException` (the
distinguished signal of the externally enforced execution budget), or raises
any other exception. -/
inductive SchemaFetchResult where
  | ok
  | jobTimeout
  | otherError (message : String)
  deriving DecidableEq, Repr

/-- The three statsd counters touched by `refresh_schema`:
`refresh_schema.success`, `refresh_schema.timeout`, `refresh_schema.error`. -/
structure Counters where
  success : Nat
  timeout : Nat
  error : Nat
  deriving DecidableEq, Repr

/-- Terminal outcome of one `refresh_schema` invocation, read off the
`state=...` log of the branch taken: `finished` ↦ `Success`,
`timeout` ↦ `TimedOut`, `failed` ↦ `Failed`. -/
inductive SchemaOutcome where
  | Success
  | TimedOut
  | Failed
  deriving DecidableEq, Repr

/-- The `refresh_schema` task body: dispatches on what the introspection call
did and updates the counters.  `Except.error` would mean an exception escapes
the task (re-raised); every branch of the source's try/except returns
normally, so every branch here is `Except.ok`. -/
def refresh_schema (fetch : SchemaFetchResult) (c : Counters) :
    Except String (SchemaOutcome × Counters) :=
  match fetch with
  | SchemaFetchResult.ok =>
    Except.ok (SchemaOutcome.Success, { c with success := c.success + 1 })
  | SchemaFetchResult.jobTimeout =>
    Except.ok (SchemaOutcome.TimedOut, { c with timeout := c.timeout + 1 })
  | SchemaFetchResult.otherError _ =>
    Except.ok (SchemaOutcome.Failed, { c with error := c.error + 1 })

/-- Skip reason logged by `refresh_schemas` for one data source
(`reason=paused(...)`, `reason=blacklist`, `reason=org_disabled`). -/
inductive SchemaSkipReason where
  | paused (pause_reason : String)
  | blacklist
  | org_disabled
  deriving DecidableEq, Repr

/-- Observable effect of `refresh_schemas` for one data source: either the
single skip log, or the `refresh_schema.delay(ds.id)` submission. -/
inductive SchemaEvent where
  | skip (ds_id : Nat) (reason : SchemaSkipReason)
  | delay (ds_id : Nat)
  deriving DecidableEq, Repr

/-- One iteration of the `for ds in models.DataSource.query` loop of
`refresh_schemas`: the if/elif/elif/else chain in source order. -/
def processDataSource (blacklist : List Nat) (ds : DataSource) : SchemaEvent :=
  if ds.paused then
    SchemaEvent.skip ds.id (SchemaSkipReason.paused ds.pause_reason)
  else if blacklist.contains ds.id then
    SchemaEvent.skip ds.id SchemaSkipReason.blacklist
  else if ds.org_is_disabled then
    SchemaEvent.skip ds.id SchemaSkipReason.org_disabled
  else
    SchemaEvent.delay ds.id

/-- The `refresh_schemas` pass: the blacklist is read fresh from the shared
store at the start of the run, then every known data source is classified. -/
def refresh_schemas (blacklist : List Nat) (sources : List DataSource) :
    List SchemaEvent :=
  sources.map (processDataSource blacklist)

/-- Substring test on character lists: scans every suffix for the pattern. -/
def listContainsChars : List Char → List Char → Bool
  | l, sub =>
    if sub.isPrefixOf l then true
    else
      match l with
      | [] => false
      | _ :: t => listContainsChars t sub

/-- Substring test on strings, used to state that a log line carries an id. -/
def strContains (s sub : String) : Bool :=
  listContainsChars s.data sub.data

/-- Concrete data source used by the witnesses: active (not paused, org enabled). -/
def dsActive : DataSource :=
  { id := 10, name := "pg", paused := false, pause_reason := "",
    org_is_disabled := false }

/-- Concrete data source used by the witnesses: paused with a reason. -/
def dsPaused : DataSource :=
  { id := 11, name := "mysql", paused := true, pause_reason := "maintenance",
    org_is_disabled := false }

/-- Concrete query with one declared parameter whose current value is null:
the dict `{"x": None}` has the truthy key `"x"`, so `any(parameters)` is true
and the substitution collaborator is called (here returning resolved text). -/
def qAllNull : Query :=
  { id := 1, query_text := "SELECT 1",
    parameters := [{ name := "x", value := none }],
    org_is_disabled := false, data_source := some dsActive, user_id := 5,
    apply_result := ApplyResult.ok "SELECT substituted" }

/-- Concrete query with no parameters on a paused data source. -/
def qPaused : Query :=
  { id := 2, query_text := "SELECT 2", parameters := [],
    org_is_disabled := false, data_source := some dsPaused, user_id := 5,
    apply_result := ApplyResult.ok "SELECT 2" }

/-- Concrete query with no parameters on an active data source. -/
def qPlain : Query :=
  { id := 3, query_text := "SELECT 3", parameters := [],
    org_is_disabled := false, data_source := some dsActive, user_id := 5,
    apply_result := ApplyResult.ok "SELECT 3" }

/-- Concrete query whose substitution raises
`QueryDetachedFromDataSourceError` for inner query 42. -/
def qDetached : Query :=
  { id := 4, query_text := "SELECT 4",
    parameters := [{ name := "x", value := some "7" }],
    org_is_disabled := false, data_source := some dsActive, user_id := 5,
    apply_result := ApplyResult.detachedError 42 }

/-- Concrete query used for the feature-disabled skip log. -/
def q7 : Query :=
  { id := 7, query_text := "SELECT 7", parameters := [],
    org_is_disabled := false, data_source := some dsActive, user_id := 5,
    apply_result := ApplyResult.ok "SELECT 7" }

/-- List prefix test agrees with existence of a remainder. -/
theorem isPrefixOf_iff_exists (sub l : List Char) :
    sub.isPrefixOf l = true ↔ ∃ r, l = sub ++ r := by
  induction sub generalizing l with
  | nil => simp [List.isPrefixOf]
  | cons a as ih =>
    cases l with
    | nil => simp [List.isPrefixOf]
    | cons b bs =>
      simp only [List.isPrefixOf, Bool.and_eq_true, beq_iff_eq, ih,
        List.cons_append, List.cons.injEq]
      constructor
      · rintro ⟨rfl, r, rfl⟩
        exact ⟨r, rfl, rfl⟩
      · rintro ⟨r, rfl, rfl⟩
        exact ⟨rfl, r, rfl⟩

/-- Character-list substring test agrees with a decomposition. -/
theorem listContainsChars_iff (l sub : List Char) :
    listContainsChars l sub = true ↔ ∃ x y, l = x ++ sub ++ y := by
  induction l with
  | nil =>
    rw [listContainsChars]
    constructor
    · intro h
      have hp : sub.isPrefixOf ([] : List Char) = true := by
        by_contra hc
        simp only [Bool.not_eq_true] at hc
        rw [hc] at h
        simp at h
      obtain ⟨r, hr⟩ := (isPrefixOf_iff_exists sub []).1 hp
      exact ⟨[], r, by simpa using hr⟩
    · rintro ⟨x, y, h⟩
      obtain ⟨⟨hx, hsub⟩, hy⟩ : (x = [] ∧ sub = []) ∧ y = [] := by
        have h2 := h.symm
        rw [List.append_eq_nil, List.append_eq_nil] at h2
        exact h2
      subst hsub
      decide
  | cons c t ih =>
    rw [listContainsChars]
    by_cases hp : sub.isPrefixOf (c :: t) = true
    · simp only [hp, if_true, true_iff]
      obtain ⟨r, hr⟩ := (isPrefixOf_iff_exists sub (c :: t)).1 hp
      exact ⟨[], r, by simpa using hr⟩
    · simp only [hp, if_false, Bool.false_eq_true]
      rw [ih]
      constructor
      · rintro ⟨x, y, rfl⟩
        exact ⟨c :: x, y, by simp⟩
      · rintro ⟨x, y, h⟩
        cases x with
        | nil =>
          exfalso
          apply hp
          rw [isPrefixOf_iff_exists]
          exact ⟨y, by simpa using h⟩
        | cons x0 xs =>
          simp only [List.cons_append, List.cons.injEq] at h
          exact ⟨xs, y, h.2⟩

/-- String substring test agrees with a decomposition into appends. -/
theorem strContains_iff (s sub : String) :
    strContains s sub = true ↔ ∃ a b : String, s = a ++ sub ++ b := by
  unfold strContains
  rw [listContainsChars_iff]
  constructor
  · rintro ⟨x, y, h⟩
    refine ⟨⟨x⟩, ⟨y⟩, ?_⟩
    apply String.ext
    simp [String.data_append, h]
  · rintro ⟨a, b, h⟩
    exact ⟨a.data, b.data, by rw [h]; simp [String.data_append]⟩

/-- A string visibly of the shape `a ++ sub ++ b` contains `sub`. -/
theorem strContains_mid (a sub b : String) :
    strContains (a ++ sub ++ b) sub = true :=
  (strContains_iff _ _).2 ⟨a, b, rfl⟩

/-- Containment transported along an equation. -/
theorem strContains_of_eq (line a sub b : String) (h : line = a ++ sub ++ b) :
    strContains line sub = true :=
  h ▸ strContains_mid a sub b

/-- Each loop iteration emits exactly one disposition: one queue submission,
or one failure-tracker record, or one skip log. -/
theorem processQuery_disposition (dis : Bool) (q : Query) :
    ((processQuery dis q).1.filter isEnqueue).length +
    ((processQuery dis q).1.filter isTrackFailure).length +
    ((processQuery dis q).1.filter isLogLine).length = 1 := by
  unfold processQuery
  cases dis with
  | true => simp [isEnqueue, isTrackFailure, isLogLine]
  | false =>
    by_cases horg : q.org_is_disabled = true
    · simp [horg, isEnqueue, isTrackFailure, isLogLine]
    · cases hds : q.data_source with
      | none => simp [horg, hds, isEnqueue, isTrackFailure, isLogLine]
      | some ds =>
        by_cases hp : ds.paused = true
        · simp [horg, hds, hp, isEnqueue, isTrackFailure, isLogLine]
        · by_cases hpar : anyParameters q.parameters = true
          · cases har : q.apply_result <;>
              simp [horg, hds, hp, hpar, har, isEnqueue, isTrackFailure, isLogLine]
          · simp [horg, hds, hp, hpar, isEnqueue, isTrackFailure, isLogLine]

/-- Each loop iteration submits at most one job, and only for its own query id. -/
theorem processQuery_enqueueCountFor (dis : Bool) (q : Query) (qid : Nat) :
    enqueueCountFor qid (processQuery dis q).1 ≤ 1 ∧
    (q.id ≠ qid → enqueueCountFor qid (processQuery dis q).1 = 0) := by
  unfold processQuery enqueueCountFor
  cases dis with
  | true => simp [isEnqueueFor]
  | false =>
    by_cases horg : q.org_is_disabled = true
    · simp [horg, isEnqueueFor]
    · cases hds : q.data_source with
      | none => simp [horg, hds, isEnqueueFor]
      | some ds =>
        by_cases hp : ds.paused = true
        · simp [horg, hds, hp, isEnqueueFor]
        · by_cases hpar : anyParameters q.parameters = true
          · cases har : q.apply_result with
            | ok t =>
              constructor
              · by_cases hq : q.id = qid <;>
                  simp [horg, hds, hp, hpar, har, isEnqueueFor, hq]
              · intro hq
                simp [horg, hds, hp, hpar, har, isEnqueueFor, hq]
            | invalidParameter m =>
              simp [horg, hds, hp, hpar, har, isEnqueueFor]
            | detachedError inner =>
              simp [horg, hds, hp, hpar, har, isEnqueueFor]
          · constructor
            · by_cases hq : q.id = qid <;>
                simp [horg, hds, hp, hpar, isEnqueueFor, hq]
            · intro hq
              simp [horg, hds, hp, hpar, isEnqueueFor, hq]

/-- Per-id submission counts add over trace concatenation. -/
theorem enqueueCountFor_append (qid : Nat) (a b : List Event) :
    enqueueCountFor qid (a ++ b) =
      enqueueCountFor qid a + enqueueCountFor qid b := by
  simp [enqueueCountFor, List.filter_append]

/-- A pass over queries none of which has the given id never submits it. -/
theorem enqueueCountFor_queriesEvents_zero (dis : Bool) (qid : Nat) :
    ∀ qs : List Query, qid ∉ qs.map Query.id →
      enqueueCountFor qid (queriesEvents dis qs) = 0
  | [], _ => by simp [queriesEvents, enqueueCountFor]
  | q :: rest, h => by
    rw [queriesEvents, enqueueCountFor_append]
    have h1 : q.id ≠ qid := by
      intro hc
      exact h (by simp [hc])
    rw [(processQuery_enqueueCountFor dis q qid).2 h1, Nat.zero_add]
    exact enqueueCountFor_queriesEvents_zero dis qid rest (fun hm => h (by simp at hm ⊢; exact Or.inr hm))

/-- Over a pass whose query ids are pairwise distinct, each id is submitted
at most once. -/
theorem enqueueCountFor_queriesEvents_le_one (dis : Bool) (qid : Nat) :
    ∀ qs : List Query, (qs.map Query.id).Nodup →
      enqueueCountFor qid (queriesEvents dis qs) ≤ 1
  | [], _ => by simp [queriesEvents, enqueueCountFor]
  | q :: rest, h => by
    rw [queriesEvents, enqueueCountFor_append]
    have hmap : List.map Query.id (q :: rest) = q.id :: List.map Query.id rest := rfl
    rw [hmap, List.nodup_cons] at h
    by_cases hq : q.id = qid
    · have hz : enqueueCountFor qid (queriesEvents dis rest) = 0 := by
        apply enqueueCountFor_queriesEvents_zero
        rw [← hq]
        exact h.1
      rw [hz]
      simpa using (processQuery_enqueueCountFor dis q qid).1
    · rw [(processQuery_enqueueCountFor dis q qid).2 hq, Nat.zero_add]
      exact enqueueCountFor_queriesEvents_le_one dis qid rest h.2

/-- The loop body only logs, resolves, tracks failures, and submits: it never
touches the status store or the metrics sink. -/
theorem processQuery_no_status (dis : Bool) (q : Query) :
    ∀ e ∈ (processQuery dis q).1, isStatusEvent e = false := by
  unfold processQuery
  cases dis with
  | true => simp [isStatusEvent]
  | false =>
    by_cases horg : q.org_is_disabled = true
    · simp [horg, isStatusEvent]
    · cases hds : q.data_source with
      | none => simp [horg, hds, isStatusEvent]
      | some ds =>
        by_cases hp : ds.paused = true
        · simp [horg, hds, hp, isStatusEvent]
        · by_cases hpar : anyParameters q.parameters = true
          · cases har : q.apply_result <;>
              simp [horg, hds, hp, hpar, har, isStatusEvent]
          · simp [horg, hds, hp, hpar, isStatusEvent]

/-- The whole loop never touches the status store or the metrics sink. -/
theorem queriesEvents_no_status (dis : Bool) :
    ∀ qs : List Query, ∀ e ∈ queriesEvents dis qs, isStatusEvent e = false
  | [], e => by simp [queriesEvents]
  | q :: rest, e => by
    rw [queriesEvents]
    intro hm
    rcases List.mem_append.1 hm with hm | hm
    · exact processQuery_no_status dis q e hm
    · exact queriesEvents_no_status dis rest e hm

/-- C1: the claim says a query whose declared parameters all have a null
current value is dispatched with its stored text unchanged and without
invoking substitution.  False: `any(parameters)` iterates the dict KEYS
(parameter names), so for `{"x": None}` it is true, substitution IS invoked,
and the dispatched text is whatever the collaborator returns. -/
theorem C1_counterexample :
    (∀ p ∈ qAllNull.parameters, p.value = none) ∧
    Event.applyParameters qAllNull.id ∈ refresh_queries false [qAllNull] ⟨none⟩ 100 ∧
    Event.enqueueQuery "SELECT substituted" 10 5 1 ∈
      refresh_queries false [qAllNull] ⟨none⟩ 100 ∧
    "SELECT substituted" ≠ qAllNull.query_text := by
  decide

/-- C1 (amended): a query is dispatched with its stored text unchanged and
with no substitution invoked exactly when no declared parameter has a truthy
(non-empty) name — in particular when it declares no parameters; whenever
some parameter name is non-empty, substitution is invoked even if every
current value is null. -/
theorem C1_all_null_parameters_amended (q : Query) (ds : DataSource)
    (horg : q.org_is_disabled = false) (hds : q.data_source = some ds)
    (hp : ds.paused = false) :
    (anyParameters q.parameters = false →
      (processQuery false q).1 =
        [Event.enqueueQuery q.query_text ds.id q.user_id q.id] ∧
      (processQuery false q).2 = some q.id ∧
      ∀ e ∈ (processQuery false q).1, e ≠ Event.applyParameters q.id) ∧
    (anyParameters q.parameters = true →
      Event.applyParameters q.id ∈ (processQuery false q).1) := by
  constructor
  · intro hpar
    refine ⟨?_, ?_, ?_⟩ <;> simp [processQuery, horg, hds, hp, hpar]
  · intro hpar
    cases har : q.apply_result <;> simp [processQuery, horg, hds, hp, hpar, har]

/-- C1 witness: the amended theorem applied to a concrete parameterless query. -/
theorem C1_amended_witness :
    (anyParameters qPlain.parameters = false →
      (processQuery false qPlain).1 =
        [Event.enqueueQuery qPlain.query_text dsActive.id qPlain.user_id qPlain.id] ∧
      (processQuery false qPlain).2 = some qPlain.id ∧
      ∀ e ∈ (processQuery false qPlain).1, e ≠ Event.applyParameters qPlain.id) ∧
    (anyParameters qPlain.parameters = true →
      Event.applyParameters qPlain.id ∈ (processQuery false qPlain).1) :=
  C1_all_null_parameters_amended qPlain dsActive rfl rfl rfl

/-- C2: every query of the outdated set yields exactly one disposition
(queue submission, skip log, or failure-tracker record), and — the outdated
snapshot listing each query once — no query id is submitted more than once
in the pass. -/
theorem C2_exactly_one_disposition (dis : Bool) (queries : List Query)
    (qid : Nat) (hnodup : (queries.map Query.id).Nodup) :
    (∀ q ∈ queries,
      ((processQuery dis q).1.filter isEnqueue).length +
      ((processQuery dis q).1.filter isTrackFailure).length +
      ((processQuery dis q).1.filter isLogLine).length = 1) ∧
    enqueueCountFor qid (queriesEvents dis queries) ≤ 1 :=
  ⟨fun q _ => processQuery_disposition dis q,
   enqueueCountFor_queriesEvents_le_one dis qid queries hnodup⟩

/-- C2 witness: the theorem applied to a concrete two-query pass. -/
theorem C2_witness :
    (∀ q ∈ [qAllNull, qPaused],
      ((processQuery false q).1.filter isEnqueue).length +
      ((processQuery false q).1.filter isTrackFailure).length +
      ((processQuery false q).1.filter isLogLine).length = 1) ∧
    enqueueCountFor 1 (queriesEvents false [qAllNull, qPaused]) ≤ 1 :=
  C2_exactly_one_disposition false [qAllNull, qPaused] 1 (by decide)

/-- C3: when the introspection call raises the distinguished timeout signal,
`refresh_schema` returns normally (not re-raised) as `TimedOut`, incrementing
the timeout counter exactly once and leaving the error counter untouched;
any other exception returns normally as `Failed`, incrementing only the
error counter. -/
theorem C3_schema_timeout_outcome (c : Counters) (m : String) :
    refresh_schema SchemaFetchResult.jobTimeout c =
      Except.ok (SchemaOutcome.TimedOut,
        { success := c.success, timeout := c.timeout + 1, error := c.error }) ∧
    refresh_schema (SchemaFetchResult.otherError m) c =
      Except.ok (SchemaOutcome.Failed,
        { success := c.success, timeout := c.timeout, error := c.error + 1 }) :=
  ⟨rfl, rfl⟩

/-- C4: the schema refresh scheduler evaluates skip reasons in the fixed
first-match order paused → blacklisted → organization-disabled, so a data
source both paused and blacklisted is skipped with reason paused and never
with reason blacklisted. -/
theorem C4_schema_skip_precedence (bl : List Nat) (ds : DataSource)
    (hp : ds.paused = true) (_hb : ds.id ∈ bl) :
    processDataSource bl ds =
      SchemaEvent.skip ds.id (SchemaSkipReason.paused ds.pause_reason) ∧
    processDataSource bl ds ≠ SchemaEvent.skip ds.id SchemaSkipReason.blacklist ∧
    (∀ ds2 : DataSource, ds2.paused = false → ds2.id ∈ bl →
      processDataSource bl ds2 =
        SchemaEvent.skip ds2.id SchemaSkipReason.blacklist) ∧
    (∀ ds3 : DataSource, ds3.paused = false → ds3.id ∉ bl →
      ds3.org_is_disabled = true →
      processDataSource bl ds3 =
        SchemaEvent.skip ds3.id SchemaSkipReason.org_disabled) ∧
    (∀ ds4 : DataSource, ds4.paused = false → ds4.id ∉ bl →
      ds4.org_is_disabled = false →
      processDataSource bl ds4 = SchemaEvent.delay ds4.id) := by
  refine ⟨?_, ?_, ?_, ?_, ?_⟩
  · simp [processDataSource, hp]
  · simp [processDataSource, hp]
  · intro ds2 h1 h2
    simp [processDataSource, h1, h2]
  · intro ds3 h1 h2 h3
    simp [processDataSource, h1, h2, h3]
  · intro ds4 h1 h2 h3
    simp [processDataSource, h1, h2, h3]

/-- C4 witness: the theorem applied to a concrete paused-and-blacklisted
data source. -/
theorem C4_witness :
    processDataSource [11] dsPaused =
      SchemaEvent.skip dsPaused.id (SchemaSkipReason.paused dsPaused.pause_reason) ∧
    processDataSource [11] dsPaused ≠
      SchemaEvent.skip dsPaused.id SchemaSkipReason.blacklist ∧
    (∀ ds2 : DataSource, ds2.paused = false → ds2.id ∈ [11] →
      processDataSource [11] ds2 =
        SchemaEvent.skip ds2.id SchemaSkipReason.blacklist) ∧
    (∀ ds3 : DataSource, ds3.paused = false → ds3.id ∉ [11] →
      ds3.org_is_disabled = true →
      processDataSource [11] ds3 =
        SchemaEvent.skip ds3.id SchemaSkipReason.org_disabled) ∧
    (∀ ds4 : DataSource, ds4.paused = false → ds4.id ∉ [11] →
      ds4.org_is_disabled = false →
      processDataSource [11] ds4 = SchemaEvent.delay ds4.id) :=
  C4_schema_skip_precedence [11] dsPaused rfl (by decide)

/-- C5: a query whose substitution raises the detached-nested-query error is
never submitted, yields exactly one failure-tracker record whose message
carries both the outer and the inner query id, and the pass continues with
the remaining candidates. -/
theorem C5_detached_failure (q : Query) (ds : DataSource) (rest : List Query)
    (inner : Nat) (horg : q.org_is_disabled = false)
    (hds : q.data_source = some ds) (hp : ds.paused = false)
    (hpar : anyParameters q.parameters = true)
    (happ : q.apply_result = ApplyResult.detachedError inner) :
    (processQuery false q).1 =
      [Event.applyParameters q.id,
       Event.trackFailure q.id ("Skipping refresh of " ++ toString q.id ++
         " because a related dropdown query (" ++ toString inner ++
         ") is unattached to any datasource.")] ∧
    (∀ e ∈ (processQuery false q).1, isEnqueue e = false) ∧
    ((processQuery false q).1.filter isTrackFailure).length = 1 ∧
    (processQuery false q).2 = none ∧
    queriesEvents false (q :: rest) =
      (processQuery false q).1 ++ queriesEvents false rest := by
  refine ⟨?_, ?_, ?_, ?_, rfl⟩ <;>
    simp [processQuery, horg, hds, hp, hpar, happ, isEnqueue, isTrackFailure]

/-- C5 witness: the theorem applied to a concrete detached query. -/
theorem C5_detached_witness :
    (processQuery false qDetached).1 =
      [Event.applyParameters qDetached.id,
       Event.trackFailure qDetached.id ("Skipping refresh of " ++
         toString qDetached.id ++ " because a related dropdown query (" ++
         toString 42 ++ ") is unattached to any datasource.")] ∧
    (∀ e ∈ (processQuery false qDetached).1, isEnqueue e = false) ∧
    ((processQuery false qDetached).1.filter isTrackFailure).length = 1 ∧
    (processQuery false qDetached).2 = none ∧
    queriesEvents false (qDetached :: []) =
      (processQuery false qDetached).1 ++ queriesEvents false [] :=
  C5_detached_failure qDetached dsActive [] 42 rfl rfl rfl rfl rfl

/-- C6: the query eligibility checks run in the fixed first-match order
feature-disabled → organization-disabled → missing data source → paused data
source, and a query passing all four proceeds to parameter resolution and
dispatch. -/
theorem C6_eligibility_order (q : Query) :
    (processQuery true q).1 = [Event.logLine "Disabled refresh queries."] ∧
    (q.org_is_disabled = true →
      (processQuery false q).1 =
        [Event.logLine ("Skipping refresh of " ++ toString q.id ++
          " because org is disabled.")]) ∧
    (q.org_is_disabled = false → q.data_source = none →
      (processQuery false q).1 =
        [Event.logLine ("Skipping refresh of " ++ toString q.id ++
          " because the datasource is none.")]) ∧
    (∀ ds, q.org_is_disabled = false → q.data_source = some ds →
      ds.paused = true →
      (processQuery false q).1 =
        [Event.logLine ("Skipping refresh of " ++ toString q.id ++
          " because datasource - " ++ ds.name ++ " is paused (" ++
          ds.pause_reason ++ ").")]) ∧
    (∀ ds, q.org_is_disabled = false → q.data_source = some ds →
      ds.paused = false →
      (anyParameters q.parameters = true →
        ∃ tail, (processQuery false q).1 =
          Event.applyParameters q.id :: tail) ∧
      (anyParameters q.parameters = false →
        (processQuery false q).1 =
          [Event.enqueueQuery q.query_text ds.id q.user_id q.id] ∧
        (processQuery false q).2 = some q.id)) := by
  refine ⟨rfl, ?_, ?_, ?_, ?_⟩
  · intro horg
    simp [processQuery, horg]
  · intro horg hds
    simp [processQuery, horg, hds]
  · intro ds horg hds hp
    simp [processQuery, horg, hds, hp]
  · intro ds horg hds hp
    constructor
    · intro hpar
      cases har : q.apply_result with
      | ok t =>
        exact ⟨[Event.enqueueQuery t ds.id q.user_id q.id],
          by simp [processQuery, horg, hds, hp, hpar, har]⟩
      | invalidParameter m =>
        exact ⟨[Event.trackFailure q.id ("Skipping refresh of " ++
            toString q.id ++ " because of invalid parameters: " ++ m)],
          by simp [processQuery, horg, hds, hp, hpar, har]⟩
      | detachedError inner =>
        exact ⟨[Event.trackFailure q.id ("Skipping refresh of " ++
            toString q.id ++ " because a related dropdown query (" ++
            toString inner ++ ") is unattached to any datasource.")],
          by simp [processQuery, horg, hds, hp, hpar, har]⟩
    · intro hpar
      constructor <;> simp [processQuery, horg, hds, hp, hpar]

/-- C6 witness: the theorem applied to a concrete query on a paused data
source, discharging the inner implications. -/
theorem C6_witness :
    (processQuery false qPaused).1 =
      [Event.logLine ("Skipping refresh of " ++ toString qPaused.id ++
        " because datasource - " ++ dsPaused.name ++ " is paused (" ++
        dsPaused.pause_reason ++ ").")] :=
  (C6_eligibility_order qPaused).2.2.2.1 dsPaused rfl rfl rfl

/-- C7: with an empty outdated set the pass still records a count of 0 and
overwrites the status record with the fresh timestamp and an empty id list. -/
theorem C7_empty_pass (dis : Bool) (store : StatusStore) (now : Int) :
    refresh_queries dis [] store now =
      [Event.logLine "Refreshing queries...",
       Event.gauge "manager.outdated_queries" 0,
       Event.logLine "Done refreshing queries. Found 0 outdated queries: []",
       Event.statusRead,
       Event.statusWrite 0 [] now,
       Event.gauge "manager.seconds_since_refresh"
         (now - (store.last_refresh_at.getD now))] := by
  cases dis <;> rfl

/-- C8: the claim says the elapsed-seconds gauge is emitted before the status
record is overwritten.  False on a concrete run: in the trace the
`statusWrite` strictly precedes the `manager.seconds_since_refresh` gauge
(the gauge is still computed from the timestamp read before the overwrite). -/
theorem C8_counterexample :
    refresh_queries false [] ⟨some 50⟩ 120 =
      [Event.logLine "Refreshing queries...",
       Event.gauge "manager.outdated_queries" 0,
       Event.logLine "Done refreshing queries. Found 0 outdated queries: []",
       Event.statusRead,
       Event.statusWrite 0 [] 120,
       Event.gauge "manager.seconds_since_refresh" 70] ∧
    (refresh_queries false [] ⟨some 50⟩ 120).indexOf (Event.statusWrite 0 [] 120) <
      (refresh_queries false [] ⟨some 50⟩ 120).indexOf
        (Event.gauge "manager.seconds_since_refresh" 70) := by
  constructor <;> decide

/-- C8 (amended): at the end of every pass the dispatched-count gauge is
emitted, the previous record's timestamp is read, the record is overwritten
in bulk with the new count, id list and current timestamp, and only then is
the elapsed-seconds gauge emitted — computed from the timestamp read before
the overwrite; nothing earlier in the pass touches the status store or the
metrics sink. -/
theorem C8_status_order_amended (dis : Bool) (queries : List Query)
    (store : StatusStore) (now : Int) :
    ∃ p : List Event,
      refresh_queries dis queries store now =
        p ++ [Event.gauge "manager.outdated_queries"
                ((dispatchedIds dis queries).length : Int),
              Event.logLine ("Done refreshing queries. Found " ++
                toString (dispatchedIds dis queries).length ++
                " outdated queries: " ++ toString (dispatchedIds dis queries)),
              Event.statusRead,
              Event.statusWrite (dispatchedIds dis queries).length
                (dispatchedIds dis queries) now,
              Event.gauge "manager.seconds_since_refresh"
                (now - (store.last_refresh_at.getD now))] ∧
      ∀ e ∈ p, isStatusEvent e = false := by
  refine ⟨Event.logLine "Refreshing queries..." :: queriesEvents dis queries,
    rfl, ?_⟩
  intro e he
  rcases List.mem_cons.1 he with rfl | he
  · rfl
  · exact queriesEvents_no_status dis queries e he

/-- C8 amended witness: the amended theorem applied to a concrete run. -/
theorem C8_amended_witness :
    ∃ p : List Event,
      refresh_queries false [] ⟨some 50⟩ 120 =
        p ++ [Event.gauge "manager.outdated_queries"
                ((dispatchedIds false []).length : Int),
              Event.logLine ("Done refreshing queries. Found " ++
                toString (dispatchedIds false []).length ++
                " outdated queries: " ++ toString (dispatchedIds false [])),
              Event.statusRead,
              Event.statusWrite (dispatchedIds false []).length
                (dispatchedIds false []) 120,
              Event.gauge "manager.seconds_since_refresh"
                (120 - ((some (50 : Int)).getD 120))] ∧
      ∀ e ∈ p, isStatusEvent e = false :=
  C8_status_order_amended false [] ⟨some 50⟩ 120

/-- C9: the claim says every skip log line carries the skipped query's id,
including the feature-disabled case.  False: the feature-disabled branch logs
the fixed line `Disabled refresh queries.`, which does not contain the
query's id. -/
theorem C9_counterexample :
    (processQuery true q7).1 = [Event.logLine "Disabled refresh queries."] ∧
    ¬ ∃ a b : String, "Disabled refresh queries." = a ++ toString q7.id ++ b := by
  constructor
  · rfl
  · intro hx
    have h1 := (strContains_iff "Disabled refresh queries." (toString q7.id)).2 hx
    have h2 : strContains "Disabled refresh queries." (toString q7.id) = false := by
      decide
    rw [h2] at h1
    exact Bool.false_ne_true h1

/-- C9 (amended): the org-disabled, missing-data-source and paused skip log
lines carry the skipped query's id, and the paused line additionally carries
the data source name and pause reason; the feature-disabled skip logs the
fixed line `Disabled refresh queries.`, which carries no query id. -/
theorem C9_skip_log_marks_amended (q : Query) :
    (processQuery true q).1 = [Event.logLine "Disabled refresh queries."] ∧
    (q.org_is_disabled = true →
      ∃ line, (processQuery false q).1 = [Event.logLine line] ∧
        strContains line (toString q.id) = true) ∧
    (q.org_is_disabled = false → q.data_source = none →
      ∃ line, (processQuery false q).1 = [Event.logLine line] ∧
        strContains line (toString q.id) = true) ∧
    (∀ ds, q.org_is_disabled = false → q.data_source = some ds →
      ds.paused = true →
      ∃ line, (processQuery false q).1 = [Event.logLine line] ∧
        strContains line (toString q.id) = true ∧
        strContains line ds.name = true ∧
        strContains line ds.pause_reason = true) := by
  refine ⟨rfl, ?_, ?_, ?_⟩
  · intro horg
    refine ⟨"Skipping refresh of " ++ toString q.id ++
      " because org is disabled.", by simp [processQuery, horg], ?_⟩
    exact strContains_mid "Skipping refresh of " (toString q.id)
      " because org is disabled."
  · intro horg hds
    refine ⟨"Skipping refresh of " ++ toString q.id ++
      " because the datasource is none.", by simp [processQuery, horg, hds], ?_⟩
    exact strContains_mid "Skipping refresh of " (toString q.id)
      " because the datasource is none."
  · intro ds horg hds hp
    refine ⟨"Skipping refresh of " ++ toString q.id ++
      " because datasource - " ++ ds.name ++ " is paused (" ++
      ds.pause_reason ++ ").", by simp [processQuery, horg, hds, hp],
      ?_, ?_, ?_⟩
    · apply strContains_of_eq _ "Skipping refresh of " (toString q.id)
        (" because datasource - " ++ ds.name ++ " is paused (" ++
          ds.pause_reason ++ ").")
      simp [String.append_assoc]
    · apply strContains_of_eq _
        ("Skipping refresh of " ++ toString q.id ++ " because datasource - ")
        ds.name (" is paused (" ++ ds.pause_reason ++ ").")
      simp [String.append_assoc]
    · apply strContains_of_eq _
        ("Skipping refresh of " ++ toString q.id ++ " because datasource - " ++
          ds.name ++ " is paused (") ds.pause_reason ")."
      simp [String.append_assoc]

/-- C9 amended witness: the paused case at a concrete query, inner
implications discharged. -/
theorem C9_amended_witness :
    ∃ line, (processQuery false qPaused).1 = [Event.logLine line] ∧
      strContains line (toString qPaused.id) = true ∧
      strContains line dsPaused.name = true ∧
      strContains line dsPaused.pause_reason = true :=
  (C9_skip_log_marks_amended qPaused).2.2.2 dsPaused rfl rfl rfl

/-- C10: when the status store holds no previous completion timestamp, the
elapsed-since-last-refresh gauge is emitted with value 0, because the missing
timestamp defaults to the current time of the pass. -/
theorem C10_missing_status_elapsed_zero (dis : Bool) (queries : List Query)
    (store : StatusStore) (now : Int) (h : store.last_refresh_at = none) :
    ∃ p : List Event,
      refresh_queries dis queries store now =
        p ++ [Event.gauge "manager.seconds_since_refresh" 0] := by
  refine ⟨Event.logLine "Refreshing queries..." :: queriesEvents dis queries ++
    [Event.gauge "manager.outdated_queries"
       ((dispatchedIds dis queries).length : Int),
     Event.logLine ("Done refreshing queries. Found " ++
       toString (dispatchedIds dis queries).length ++ " outdated queries: " ++
       toString (dispatchedIds dis queries)),
     Event.statusRead,
     Event.statusWrite (dispatchedIds dis queries).length
       (dispatchedIds dis queries) now], ?_⟩
  simp [refresh_queries, h]

/-- C10 witness: a concrete pass against an empty status store. -/
theorem C10_witness :
    ∃ p : List Event,
      refresh_queries false [qPlain] ⟨none⟩ 100 =
        p ++ [Event.gauge "manager.seconds_since_refresh" 0] :=
  C10_missing_status_elapsed_zero false [qPlain] ⟨none⟩ 100 rfl

end Redash
